import Mathlib

/-!
Shallow embedding of the reply-encoding path of the FUSE userspace library:
the functions `kernelResponse` and `kernelResponseForOp` of `src/ops.go`,
together with the internal op types declared in that file
(`unknownOp`, `internalStatFSOp`, `internalInterruptOp`, `internalInitOp`).

Packages that `ops.go` uses but whose sources are not part of the sources
under verification (`internal/buffer`, `internal/fusekernel`, `fuseops`,
and the conversion helpers of `conversions.go`) are modelled from the
specification; each such definition says so in its doc comment and follows
the FUSE wire ABI the specification references (`out_header` is 16 bytes,
`fuse_entry_out` / `fuse_attr_out` / `fuse_init_out` are version-dependent
with the 7.9 layout boundary).

Machine integers are modelled as `Nat` / `Int`; fixed-width truncation is
applied exactly where the source casts (`uint32(len(msg))`) or where a
fixed-width field is serialised to wire bytes (each little-endian byte
serialiser keeps only the low bits of its argument, as a Go struct field
assignment would).  Go's `panic` in the default switch case is modelled as
`Except.error`; the Go zero value of `buffer.OutMessage` — the "no reply"
outcome — is modelled as `none`.
-/

namespace Fuse

/-- Modelled from the spec: `fusekernel.Protocol` is not under `src/`.
Spec §3: a protocol version is "a pair (major, minor)". -/
structure Protocol where
  Major : Nat
  Minor : Nat
  deriving DecidableEq

/-- Modelled from the spec: version ordering used to pick version-dependent
struct sizes (spec §4.2, §9: "struct sizes change between 7.x minors"). -/
def Protocol.lt (a b : Protocol) : Bool :=
  Nat.blt a.Major b.Major || (a.Major == b.Major && Nat.blt a.Minor b.Minor)

/-- Little-endian wire bytes of a 16-bit field (low bits only, as a Go
`uint16` assignment would keep). -/
def u16le (n : Nat) : List Nat :=
  [n % 256, n / 256 % 256]

/-- Little-endian wire bytes of a 32-bit field (low bits only). -/
def u32le (n : Nat) : List Nat :=
  [n % 256, n / 256 % 256, n / 65536 % 256, n / 16777216 % 256]

/-- Little-endian wire bytes of a 64-bit field (low bits only). -/
def u64le (n : Nat) : List Nat :=
  u32le (n % 4294967296) ++ u32le (n / 4294967296)

/-- Little-endian two's-complement wire bytes of a 32-bit signed field. -/
def i32le (i : Int) : List Nat :=
  u32le (Int.toNat (i % 4294967296))

/-- Modelled from the spec: `fusekernel.OutHeader` is not under `src/`.
Spec §3/§6: the fixed 16-byte reply header carries total length, error code
(negative errno, zero on success), and the unique id echoing the request. -/
structure OutHeader where
  Len : Nat
  Error : Int
  Unique : Nat
  deriving DecidableEq

/-- Wire serialisation of the reply header (`fuse_out_header`). -/
def OutHeader.bytes (h : OutHeader) : List Nat :=
  u32le h.Len ++ i32le h.Error ++ u64le h.Unique

/-- Size of `fuse_out_header` (spec §6: "the common ... `out_header`
(16 bytes)"). -/
def OutHeaderSize : Nat := 16

/-- The all-zero header a freshly allocated out message starts with. -/
def zeroOutHeader : OutHeader :=
  { Len := 0, Error := 0, Unique := 0 }

/-- Modelled from the spec: `buffer.OutMessage` is not under `src/`.
Spec §4.1: a reply buffer is the reply header followed by an append cursor;
`Grow(n)` appends an `n`-byte zeroed region used to overlay a C-compatible
struct, `Append` copies bytes, `AppendString` appends a string's bytes
without a trailing NUL, `Bytes()` returns the full frame (header then
payload) and `OutHeader()` is the mutable header prefix.  The payload field
below is the sequence of bytes after the header; the Go zero value of
`OutMessage` (used by `ops.go` for ops with no reply) is represented as
`none` at use sites, matching `Bytes()` returning `nil` there. -/
structure OutMessage where
  header : OutHeader
  payload : List Nat
  deriving DecidableEq

/-- The full reply frame: header bytes followed by the payload
(spec §4.1, `Bytes()`). -/
def OutMessage.bytes (b : OutMessage) : List Nat :=
  OutHeader.bytes b.header ++ b.payload

/-- Modelled from the spec: `fusekernel.Attr` (`fuse_attr`) is not under
`src/`.  Fields follow the FUSE ABI; the 7.9 layout appends `Blksize` and
padding at the end, which the pre-7.9 size truncates away. -/
structure Attr where
  Ino : Nat
  Size : Nat
  Blocks : Nat
  Atime : Nat
  Mtime : Nat
  Ctime : Nat
  AtimeNsec : Nat
  MtimeNsec : Nat
  CtimeNsec : Nat
  Mode : Nat
  Nlink : Nat
  Uid : Nat
  Gid : Nat
  Rdev : Nat
  Blksize : Nat
  deriving DecidableEq

/-- Wire serialisation of `fuse_attr` in its full (7.9+) layout, 88 bytes;
the final `u32le 0` is the ABI padding word. -/
def Attr.bytes (a : Attr) : List Nat :=
  u64le a.Ino ++ u64le a.Size ++ u64le a.Blocks ++
  u64le a.Atime ++ u64le a.Mtime ++ u64le a.Ctime ++
  u32le a.AtimeNsec ++ u32le a.MtimeNsec ++ u32le a.CtimeNsec ++
  u32le a.Mode ++ u32le a.Nlink ++ u32le a.Uid ++ u32le a.Gid ++
  u32le a.Rdev ++ u32le a.Blksize ++ u32le 0

/-- Modelled from the spec: `fusekernel.EntryOut` (`fuse_entry_out`) is not
under `src/`: node id, generation, entry/attr validity times, then the
attributes. -/
structure EntryOut where
  Nodeid : Nat
  Generation : Nat
  EntryValid : Nat
  AttrValid : Nat
  EntryValidNsec : Nat
  AttrValidNsec : Nat
  Attr : Attr
  deriving DecidableEq

/-- Wire serialisation of `fuse_entry_out` in its full (7.9+) layout,
40 + 88 = 128 bytes. -/
def EntryOut.bytes (e : EntryOut) : List Nat :=
  u64le e.Nodeid ++ u64le e.Generation ++ u64le e.EntryValid ++
  u64le e.AttrValid ++ u32le e.EntryValidNsec ++ u32le e.AttrValidNsec ++
  Attr.bytes e.Attr

/-- Modelled from the spec: `fusekernel.EntryOutSize` is not under `src/`.
Spec §4.2: "Version-dependent sizes (notably `EntryOut`, `AttrOut`) must
select the correct struct size"; before protocol 7.9 `fuse_attr` lacks its
trailing `blksize`/padding words, so `fuse_entry_out` is 120 bytes instead
of 128. -/
def EntryOutSize (p : Protocol) : Nat :=
  if Protocol.lt p { Major := 7, Minor := 9 } then 120 else 128

/-- Modelled from the spec: `fusekernel.AttrOut` (`fuse_attr_out`) is not
under `src/`: attr validity time, then the attributes. -/
structure AttrOut where
  AttrValid : Nat
  AttrValidNsec : Nat
  Attr : Attr
  deriving DecidableEq

/-- Wire serialisation of `fuse_attr_out` in its full (7.9+) layout,
16 + 88 = 104 bytes; the `u32le 0` is the ABI `dummy` word. -/
def AttrOut.bytes (a : AttrOut) : List Nat :=
  u64le a.AttrValid ++ u32le a.AttrValidNsec ++ u32le 0 ++ Attr.bytes a.Attr

/-- Modelled from the spec: `fusekernel.AttrOutSize` is not under `src/`;
before protocol 7.9 `fuse_attr_out` is 96 bytes instead of 104. -/
def AttrOutSize (p : Protocol) : Nat :=
  if Protocol.lt p { Major := 7, Minor := 9 } then 96 else 104

/-- Modelled from the spec: `fusekernel.OpenOut` (`fuse_open_out`) is not
under `src/`: file handle and open flags. -/
structure OpenOut where
  Fh : Nat
  OpenFlags : Nat
  deriving DecidableEq

/-- Wire serialisation of `fuse_open_out`, 16 bytes; the `u32le 0` is the
ABI padding word. -/
def OpenOut.bytes (o : OpenOut) : List Nat :=
  u64le o.Fh ++ u32le o.OpenFlags ++ u32le 0

/-- Size of `fuse_open_out`. -/
def OpenOutSize : Nat := 16

/-- Modelled from the spec: `fusekernel.WriteOut` (`fuse_write_out`) is not
under `src/`: the number of bytes written. -/
structure WriteOut where
  Size : Nat
  deriving DecidableEq

/-- Wire serialisation of `fuse_write_out`, 8 bytes. -/
def WriteOut.bytes (w : WriteOut) : List Nat :=
  u32le w.Size ++ u32le 0

/-- Size of `fuse_write_out`. -/
def WriteOutSize : Nat := 8

/-- Modelled from the spec: size of `fusekernel.StatfsOut` (`fuse_statfs_out`,
a `fuse_kstatfs`: five 64-bit counters, four 32-bit words, six spare words =
80 bytes); the struct is not under `src/`.  `ops.go` only ever grows a
zeroed region of this size, so no field model is needed. -/
def StatfsOutSize : Nat := 80

/-- Modelled from the spec: `fusekernel.InitOut` (`fuse_init_out`) is not
under `src/`.  Spec §4.5/§6: the init reply carries major/minor,
max-readahead, flags, the congestion thresholds (`MaxBackground` and
`CongestionThreshold`, the two 16-bit words of the 7.13+ ABI) and
max-write. -/
structure InitOut where
  Major : Nat
  Minor : Nat
  MaxReadahead : Nat
  Flags : Nat
  MaxBackground : Nat
  CongestionThreshold : Nat
  MaxWrite : Nat
  deriving DecidableEq

/-- Wire serialisation of `fuse_init_out`, 24 bytes, congestion-threshold
words included. -/
def InitOut.bytes (o : InitOut) : List Nat :=
  u32le o.Major ++ u32le o.Minor ++ u32le o.MaxReadahead ++ u32le o.Flags ++
  u16le o.MaxBackground ++ u16le o.CongestionThreshold ++ u32le o.MaxWrite

/-- Size of `fuse_init_out`. -/
def InitOutSize : Nat := 24

/-- Modelled from the spec: a `(sec, nsec)` time pair (spec §4.2: "Times are
`(sec: u64, nsec: u32)` pairs"). -/
structure TimeSpec where
  Sec : Nat
  Nsec : Nat
  deriving DecidableEq

/-- Modelled from the spec: `fuseops.InodeAttributes` is not under `src/`;
the attribute out-fields a user filesystem supplies (spec §3). -/
structure InodeAttributes where
  Size : Nat
  Nlink : Nat
  Mode : Nat
  Atime : TimeSpec
  Mtime : TimeSpec
  Ctime : TimeSpec
  Uid : Nat
  Gid : Nat
  deriving DecidableEq

/-- Modelled from the spec: `fuseops.ChildInodeEntry` is not under `src/`;
the entry out-fields for ops that return a child inode.  Expirations are
durations in nanoseconds relative to now (the Go field is an absolute
`time.Time`; only the difference from now reaches the wire). -/
structure ChildInodeEntry where
  Child : Nat
  Generation : Nat
  Attributes : InodeAttributes
  AttributesExpiration : Int
  EntryExpiration : Int
  deriving DecidableEq

/-- Modelled from the spec: `convertExpirationTime` (`conversions.go` is not
under `src/`).  Spec §4.2: "negative/zero expirations map to zero on the
wire"; positive durations split into a `(sec, nsec)` pair. -/
def convertExpirationTime (d : Int) : Nat × Nat :=
  if d ≤ 0 then (0, 0)
  else ((d / 1000000000).toNat, (d % 1000000000).toNat)

/-- Modelled from the spec: `convertAttributes` (`conversions.go` is not
under `src/`): copy the user-supplied attributes into a wire `fuse_attr`,
with the inode number as `Ino`; fields the library does not fill stay
zero. -/
def convertAttributes (inode : Nat) (a : InodeAttributes) : Attr :=
  { Ino := inode
    Size := a.Size
    Blocks := 0
    Atime := a.Atime.Sec
    Mtime := a.Mtime.Sec
    Ctime := a.Ctime.Sec
    AtimeNsec := a.Atime.Nsec
    MtimeNsec := a.Mtime.Nsec
    CtimeNsec := a.Ctime.Nsec
    Mode := a.Mode
    Nlink := a.Nlink
    Uid := a.Uid
    Gid := a.Gid
    Rdev := 0
    Blksize := 0 }

/-- Modelled from the spec: `convertChildInodeEntry` (`conversions.go` is
not under `src/`): fill a `fuse_entry_out` from the op's `ChildInodeEntry`
out-field. -/
def convertChildInodeEntry (e : ChildInodeEntry) : EntryOut :=
  let ev := convertExpirationTime e.EntryExpiration
  let av := convertExpirationTime e.AttributesExpiration
  { Nodeid := e.Child
    Generation := e.Generation
    EntryValid := ev.1
    AttrValid := av.1
    EntryValidNsec := ev.2
    AttrValidNsec := av.2
    Attr := convertAttributes e.Child e.Attributes }

/-- Modelled from the spec: `fuseops.LookUpInodeOp` is not under `src/`;
in-fields parent/name, out-field `Entry` (the only field `ops.go` reads). -/
structure LookUpInodeOp where
  Parent : Nat
  Name : List Nat
  Entry : ChildInodeEntry
  deriving DecidableEq

/-- Modelled from the spec: `fuseops.GetInodeAttributesOp` is not under
`src/`; `ops.go` reads `Inode`, `Attributes`, `AttributesExpiration`. -/
structure GetInodeAttributesOp where
  Inode : Nat
  Attributes : InodeAttributes
  AttributesExpiration : Int
  deriving DecidableEq

/-- Modelled from the spec: `fuseops.SetInodeAttributesOp` is not under
`src/`; `ops.go` reads the same out-fields as the get-attributes op. -/
structure SetInodeAttributesOp where
  Inode : Nat
  Attributes : InodeAttributes
  AttributesExpiration : Int
  deriving DecidableEq

/-- Modelled from the spec: `fuseops.ForgetInodeOp` is not under `src/`;
`ops.go` reads no field of it (it is a no-reply op). -/
structure ForgetInodeOp where
  Inode : Nat
  N : Nat
  deriving DecidableEq

/-- Modelled from the spec: `fuseops.MkDirOp` is not under `src/`. -/
structure MkDirOp where
  Parent : Nat
  Name : List Nat
  Mode : Nat
  Entry : ChildInodeEntry
  deriving DecidableEq

/-- Modelled from the spec: `fuseops.CreateFileOp` is not under `src/`;
out-fields `Entry` and `Handle`. -/
structure CreateFileOp where
  Parent : Nat
  Name : List Nat
  Mode : Nat
  Entry : ChildInodeEntry
  Handle : Nat
  deriving DecidableEq

/-- Modelled from the spec: `fuseops.CreateSymlinkOp` is not under `src/`. -/
structure CreateSymlinkOp where
  Parent : Nat
  Name : List Nat
  Target : List Nat
  Entry : ChildInodeEntry
  deriving DecidableEq

/-- Modelled from the spec: `fuseops.RenameOp` is not under `src/`; no
out-fields. -/
structure RenameOp where
  OldParent : Nat
  OldName : List Nat
  NewParent : Nat
  NewName : List Nat
  deriving DecidableEq

/-- Modelled from the spec: `fuseops.RmDirOp` is not under `src/`. -/
structure RmDirOp where
  Parent : Nat
  Name : List Nat
  deriving DecidableEq

/-- Modelled from the spec: `fuseops.UnlinkOp` is not under `src/`. -/
structure UnlinkOp where
  Parent : Nat
  Name : List Nat
  deriving DecidableEq

/-- Modelled from the spec: `fuseops.OpenDirOp` is not under `src/`;
out-field `Handle`. -/
structure OpenDirOp where
  Inode : Nat
  Handle : Nat
  deriving DecidableEq

/-- Modelled from the spec: `fuseops.ReadDirOp` is not under `src/`;
out-field `Data`, the pre-formatted listing bytes. -/
structure ReadDirOp where
  Inode : Nat
  Handle : Nat
  Offset : Nat
  Data : List Nat
  deriving DecidableEq

/-- Modelled from the spec: `fuseops.ReleaseDirHandleOp` is not under
`src/`. -/
structure ReleaseDirHandleOp where
  Handle : Nat
  deriving DecidableEq

/-- Modelled from the spec: `fuseops.OpenFileOp` is not under `src/`;
out-field `Handle`. -/
structure OpenFileOp where
  Inode : Nat
  Handle : Nat
  deriving DecidableEq

/-- Modelled from the spec: `fuseops.ReadFileOp` is not under `src/`;
out-field `Data`, the bytes read. -/
structure ReadFileOp where
  Inode : Nat
  Handle : Nat
  Offset : Nat
  Data : List Nat
  deriving DecidableEq

/-- Modelled from the spec: `fuseops.WriteFileOp` is not under `src/`;
in-field `Data`, whose length is echoed in the reply. -/
structure WriteFileOp where
  Inode : Nat
  Handle : Nat
  Offset : Nat
  Data : List Nat
  deriving DecidableEq

/-- Modelled from the spec: `fuseops.SyncFileOp` is not under `src/`. -/
structure SyncFileOp where
  Inode : Nat
  Handle : Nat
  deriving DecidableEq

/-- Modelled from the spec: `fuseops.FlushFileOp` is not under `src/`. -/
structure FlushFileOp where
  Inode : Nat
  Handle : Nat
  deriving DecidableEq

/-- Modelled from the spec: `fuseops.ReleaseFileHandleOp` is not under
`src/`. -/
structure ReleaseFileHandleOp where
  Handle : Nat
  deriving DecidableEq

/-- Modelled from the spec: `fuseops.ReadSymlinkOp` is not under `src/`;
out-field `Target`, the link target's bytes. -/
structure ReadSymlinkOp where
  Inode : Nat
  Target : List Nat
  deriving DecidableEq

/-- From `src/ops.go`: sentinel for unknown opcodes; "The user is expected
to respond with a non-nil error." -/
structure unknownOp where
  opCode : Nat
  inode : Nat
  deriving DecidableEq

/-- From `src/ops.go`: the internal statfs op; it carries no fields at all,
so no user-supplied statfs values can reach the encoder. -/
structure internalStatFSOp where
  deriving DecidableEq

/-- From `src/ops.go`: the internal interrupt op. -/
structure internalInterruptOp where
  FuseID : Nat
  deriving DecidableEq

/-- From `src/ops.go`: the internal init op; `Kernel` is the in-field,
the rest are out-fields encoded into the reply. -/
structure internalInitOp where
  Kernel : Protocol
  Library : Protocol
  MaxReadahead : Nat
  Flags : Nat
  MaxWrite : Nat
  deriving DecidableEq

/-- The dynamic type of the `op interface\x7b\x7d` argument: exactly the op
variants the type switch of `kernelResponseForOp` recognises, in source
order, plus the `unknownOp` sentinel that falls to its default case. -/
inductive Op where
  | lookUpInode (o : LookUpInodeOp)
  | getInodeAttributes (o : GetInodeAttributesOp)
  | setInodeAttributes (o : SetInodeAttributesOp)
  | forgetInode (o : ForgetInodeOp)
  | mkDir (o : MkDirOp)
  | createFile (o : CreateFileOp)
  | createSymlink (o : CreateSymlinkOp)
  | rename (o : RenameOp)
  | rmDir (o : RmDirOp)
  | unlink (o : UnlinkOp)
  | openDir (o : OpenDirOp)
  | readDir (o : ReadDirOp)
  | releaseDirHandle (o : ReleaseDirHandleOp)
  | openFile (o : OpenFileOp)
  | readFile (o : ReadFileOp)
  | writeFile (o : WriteFileOp)
  | syncFile (o : SyncFileOp)
  | flushFile (o : FlushFileOp)
  | releaseFileHandle (o : ReleaseFileHandleOp)
  | readSymlink (o : ReadSymlinkOp)
  | statFS (o : internalStatFSOp)
  | interrupt (o : internalInterruptOp)
  | init (o : internalInitOp)
  | unknown (o : unknownOp)
  deriving DecidableEq

/-- Whether the variant is the `unknownOp` sentinel (the one that reaches
the `panic` default of the type switch). -/
def Op.isUnknown : Op → Bool
  | .unknown _ => true
  | _ => false

/-- The no-reply set is fixed by opcode: `ForgetInodeOp` and
`internalInterruptOp` are the two variants for which `kernelResponseForOp`
leaves the out message at its zero value. -/
def Op.hasReply : Op → Bool
  | .forgetInode _ => false
  | .interrupt _ => false
  | _ => true

/-- Modelled from the Go error interface: the user's reply error is either a
`syscall.Errno` or some other error value (which `kernelResponse` maps to
`EIO`). -/
inductive GoError where
  | errno (n : Nat)
  | other
  deriving DecidableEq

/-- `syscall.EIO` on Linux. -/
def eioVal : Nat := 5

/-- `syscall.ENOSYS` on Linux. -/
def enosysVal : Nat := 38

/-- The errno that `kernelResponse` writes for a given non-nil error: the
errno itself for a `syscall.Errno`, `EIO` for anything else
(`src/ops.go` lines 40-44). -/
def errnoVal : GoError → Nat
  | .errno n => n
  | .other => eioVal

/-- From `src/ops.go` (`kernelResponseForOp`): like `kernelResponse`, but
assumes the user replied with a nil error to the op.  Returns `none`
(the Go zero-value `OutMessage`, whose `Bytes()` is nil) if no response is
required, and `Except.error` for the `panic` in the default case.  Each
branch mirrors the corresponding `case` of the Go type switch: a fresh out
message with a zero header, whose payload is what the branch's
`Grow`-overlaid structs / `Append` calls produce.  Version-dependent
`Grow(EntryOutSize protocol)` / `Grow(AttrOutSize protocol)` regions are the
first `size` bytes of the full struct serialisation (field stores past the
grown region fall outside the message, exactly as in the Go buffer). -/
def kernelResponseForOp (op : Op) (protocol : Protocol) :
    Except String (Option OutMessage) :=
  match op with
  | .lookUpInode o =>
    let size := EntryOutSize protocol
    .ok (some { header := zeroOutHeader
                payload := (EntryOut.bytes (convertChildInodeEntry o.Entry)).take size })
  | .getInodeAttributes o =>
    let size := AttrOutSize protocol
    let v := convertExpirationTime o.AttributesExpiration
    .ok (some { header := zeroOutHeader
                payload := (AttrOut.bytes
                  { AttrValid := v.1
                    AttrValidNsec := v.2
                    Attr := convertAttributes o.Inode o.Attributes }).take size })
  | .setInodeAttributes o =>
    let size := AttrOutSize protocol
    let v := convertExpirationTime o.AttributesExpiration
    .ok (some { header := zeroOutHeader
                payload := (AttrOut.bytes
                  { AttrValid := v.1
                    AttrValidNsec := v.2
                    Attr := convertAttributes o.Inode o.Attributes }).take size })
  | .forgetInode _ =>
    .ok none
  | .mkDir o =>
    let size := EntryOutSize protocol
    .ok (some { header := zeroOutHeader
                payload := (EntryOut.bytes (convertChildInodeEntry o.Entry)).take size })
  | .createFile o =>
    let eSize := EntryOutSize protocol
    .ok (some { header := zeroOutHeader
                payload := (EntryOut.bytes (convertChildInodeEntry o.Entry)).take eSize ++
                  OpenOut.bytes { Fh := o.Handle, OpenFlags := 0 } })
  | .createSymlink o =>
    let size := EntryOutSize protocol
    .ok (some { header := zeroOutHeader
                payload := (EntryOut.bytes (convertChildInodeEntry o.Entry)).take size })
  | .rename _ =>
    .ok (some { header := zeroOutHeader, payload := [] })
  | .rmDir _ =>
    .ok (some { header := zeroOutHeader, payload := [] })
  | .unlink _ =>
    .ok (some { header := zeroOutHeader, payload := [] })
  | .openDir o =>
    .ok (some { header := zeroOutHeader
                payload := OpenOut.bytes { Fh := o.Handle, OpenFlags := 0 } })
  | .readDir o =>
    .ok (some { header := zeroOutHeader, payload := o.Data })
  | .releaseDirHandle _ =>
    .ok (some { header := zeroOutHeader, payload := [] })
  | .openFile o =>
    .ok (some { header := zeroOutHeader
                payload := OpenOut.bytes { Fh := o.Handle, OpenFlags := 0 } })
  | .readFile o =>
    .ok (some { header := zeroOutHeader, payload := o.Data })
  | .writeFile o =>
    .ok (some { header := zeroOutHeader
                payload := WriteOut.bytes { Size := o.Data.length } })
  | .syncFile _ =>
    .ok (some { header := zeroOutHeader, payload := [] })
  | .flushFile _ =>
    .ok (some { header := zeroOutHeader, payload := [] })
  | .releaseFileHandle _ =>
    .ok (some { header := zeroOutHeader, payload := [] })
  | .readSymlink o =>
    .ok (some { header := zeroOutHeader, payload := o.Target })
  | .statFS _ =>
    .ok (some { header := zeroOutHeader
                payload := List.replicate StatfsOutSize 0 })
  | .interrupt _ =>
    .ok none
  | .init o =>
    .ok (some { header := zeroOutHeader
                payload := InitOut.bytes
                  { Major := o.Library.Major
                    Minor := o.Library.Minor
                    MaxReadahead := o.MaxReadahead
                    Flags := o.Flags
                    MaxBackground := 0
                    CongestionThreshold := 0
                    MaxWrite := o.MaxWrite } })
  | .unknown _ =>
    .error ("Unknown op")

/-- From `src/ops.go` lines 51-56: once `Bytes()` is non-nil, fill in the
rest of the header through the aliasing `OutHeader()` pointer —
`h.Unique = fuseID` and `h.Len = uint32(len(msg))`, where `len(msg)` is the
header size plus the payload length. -/
def finalizeHeader (fuseID : Nat) : Option OutMessage → Option OutMessage
  | none => none
  | some b =>
    some { b with header :=
      { b.header with
          Unique := fuseID
          Len := (OutHeaderSize + b.payload.length) % 4294967296 } }

/-- From `src/ops.go` (`kernelResponse`): return the response that should
be sent to the kernel, `none` when the op requires no response.  A non-nil
user error yields a header-only message carrying the negated errno
(regardless of the op); a nil error defers to `kernelResponseForOp`. -/
def kernelResponse (fuseID : Nat) (op : Op) (opErr : Option GoError)
    (protocol : Protocol) : Except String (Option OutMessage) :=
  match opErr with
  | some e =>
    .ok (finalizeHeader fuseID
      (some { header := { Len := 0, Error := -(Int.ofNat (errnoVal e)), Unique := 0 }
              payload := [] }))
  | none =>
    (kernelResponseForOp op protocol).map (finalizeHeader fuseID)

/-- Modelled from the spec: the server loop is not under `src/`.  Spec §4.3:
"Unknown opcodes become an "unknown op" variant that the server answers
with ENOSYS without invoking user code."  The reply itself is produced by
`kernelResponse` (`src/ops.go`); the boolean records whether a user
filesystem callback was invoked for the request. -/
def serveUnknownOp (fuseID : Nat) (o : unknownOp) (p : Protocol) :
    Except String (Option OutMessage) × Bool :=
  (kernelResponse fuseID (Op.unknown o) (some (GoError.errno enosysVal)) p, false)

/-- Whether an `Except` result is a success (the Go execution did not
panic). -/
def isOkE {α : Type} : Except String α → Bool
  | .ok _ => true
  | .error _ => false

end Fuse

namespace Fuse

/-- Helper: a reply frame is the 16 header bytes followed by the payload. -/
theorem outMessage_frame_length (b : OutMessage) :
    (OutMessage.bytes b).length = OutHeaderSize + b.payload.length := by
  have hh : (OutHeader.bytes b.header).length = 16 := rfl
  simp [OutMessage.bytes, List.length_append, hh, OutHeaderSize]

/-- Helper: whenever `kernelResponse` produces a reply message, its header
carries the request's `fuseID` and the 32-bit-truncated frame length. -/
theorem kernelResponse_header_spec (fid : Nat) (op : Op) (opErr : Option GoError)
    (p : Protocol) (b : OutMessage)
    (h : kernelResponse fid op opErr p = Except.ok (some b)) :
    b.header.Unique = fid ∧
    b.header.Len = (OutHeaderSize + b.payload.length) % 4294967296 := by
  cases opErr with
  | some e =>
    simp only [kernelResponse, finalizeHeader, Except.ok.injEq, Option.some.injEq] at h
    subst h
    exact ⟨rfl, rfl⟩
  | none =>
    unfold kernelResponse at h
    cases hk : kernelResponseForOp op p with
    | error s =>
      rw [hk] at h
      simp [Except.map] at h
    | ok mb =>
      rw [hk] at h
      cases mb with
      | none => simp [Except.map, finalizeHeader] at h
      | some m =>
        simp only [Except.map, finalizeHeader, Except.ok.injEq, Option.some.injEq] at h
        subst h
        exact ⟨rfl, rfl⟩

/-- Claim C1 (counterexample): with a non-nil error, `kernelResponse` does
return a reply frame even for a Forget op, so the claim as stated — no
bytes for every error value, nil or non-nil — fails on the code. -/
theorem forget_error_frame_not_nil :
    kernelResponse 1 (Op.forgetInode { Inode := 2, N := 1 })
        (some (GoError.errno 5)) { Major := 7, Minor := 26 } ≠
      Except.ok none := by
  intro h
  simp only [kernelResponse, finalizeHeader] at h
  exact Option.noConfusion (Except.ok.inj h)

/-- Claim C1 (amended): for Forget and Interrupt ops replied to with a nil
error, `kernelResponse` returns no reply frame; with a non-nil error it
returns a header-only error frame even for these two opcodes, exactly as
for any other op. -/
theorem noReply_ops_nil_only_on_success (fid : Nat) (p : Protocol)
    (o1 : ForgetInodeOp) (o2 : internalInterruptOp) (e : GoError) :
    kernelResponse fid (Op.forgetInode o1) none p = Except.ok none ∧
    kernelResponse fid (Op.interrupt o2) none p = Except.ok none ∧
    kernelResponse fid (Op.forgetInode o1) (some e) p =
      Except.ok (some { header := { Len := OutHeaderSize
                                    Error := -(Int.ofNat (errnoVal e))
                                    Unique := fid }
                        payload := [] }) ∧
    kernelResponse fid (Op.interrupt o2) (some e) p =
      Except.ok (some { header := { Len := OutHeaderSize
                                    Error := -(Int.ofNat (errnoVal e))
                                    Unique := fid }
                        payload := [] }) :=
  ⟨rfl, rfl, rfl, rfl⟩

/-- Claim C2: for every op that has a reply and every non-nil user error,
the reply frame is the header only (empty payload), its error field is the
negated errno (`EIO` standing in for a non-errno error), and its length
field is the header size. -/
theorem error_reply_header_only (fid : Nat) (op : Op) (e : GoError) (p : Protocol)
    (_h : Op.hasReply op = true) :
    kernelResponse fid op (some e) p =
      Except.ok (some { header := { Len := OutHeaderSize
                                    Error := -(Int.ofNat (errnoVal e))
                                    Unique := fid }
                        payload := [] }) := rfl

/-- Witness for C2 at a concrete flush op and a non-errno error. -/
theorem error_reply_header_only_witness :
    Op.hasReply (Op.flushFile { Inode := 1, Handle := 2 }) = true ∧
    kernelResponse 5 (Op.flushFile { Inode := 1, Handle := 2 }) (some GoError.other)
        { Major := 7, Minor := 26 } =
      Except.ok (some { header := { Len := 16, Error := -5, Unique := 5 }
                        payload := [] }) :=
  ⟨rfl, error_reply_header_only 5 (Op.flushFile { Inode := 1, Handle := 2 })
    GoError.other { Major := 7, Minor := 26 } rfl⟩

/-- Claim C3: every reply frame produced by `kernelResponse` — any op
variant, any error value — has the request's `fuseID` in its `Unique`
header field. -/
theorem reply_unique_echoes_fuseID (fid : Nat) (op : Op) (opErr : Option GoError)
    (p : Protocol) (b : OutMessage)
    (h : kernelResponse fid op opErr p = Except.ok (some b)) :
    b.header.Unique = fid :=
  (kernelResponse_header_spec fid op opErr p b h).1

/-- Witness for C3 at a concrete rmdir op replied to with errno 2. -/
theorem reply_unique_echoes_fuseID_witness :
    ({ header := { Len := 16, Error := -2, Unique := 9 }
       payload := [] } : OutMessage).header.Unique = 9 :=
  reply_unique_echoes_fuseID 9 (Op.rmDir { Parent := 1, Name := [] })
    (some (GoError.errno 2)) { Major := 7, Minor := 26 }
    { header := { Len := 16, Error := -2, Unique := 9 }, payload := [] } rfl

/-- Claim C4: whenever `kernelResponse` produces a reply, the `Len` header
field equals the byte length of the full frame returned by `Bytes()`
(header included), provided that length fits in the 32-bit field the source
casts it into. -/
theorem reply_len_equals_frame_length (fid : Nat) (op : Op) (opErr : Option GoError)
    (p : Protocol) (b : OutMessage)
    (h : kernelResponse fid op opErr p = Except.ok (some b))
    (hlen : (OutMessage.bytes b).length < 4294967296) :
    b.header.Len = (OutMessage.bytes b).length := by
  have hs := (kernelResponse_header_spec fid op opErr p b h).2
  rw [outMessage_frame_length] at hlen ⊢
  rw [hs]
  exact Nat.mod_eq_of_lt hlen

/-- Witness for C4 at a concrete unlink op replied to with nil error. -/
theorem reply_len_equals_frame_length_witness :
    ({ header := { Len := 16, Error := 0, Unique := 4 }
       payload := [] } : OutMessage).header.Len =
      (OutMessage.bytes { header := { Len := 16, Error := 0, Unique := 4 }
                          payload := [] }).length :=
  reply_len_equals_frame_length 4 (Op.unlink { Parent := 1, Name := [97] }) none
    { Major := 7, Minor := 26 }
    { header := { Len := 16, Error := 0, Unique := 4 }, payload := [] }
    rfl (by decide)

end Fuse

namespace Fuse

/-- Helper: the full `fuse_attr` serialisation is 88 bytes. -/
theorem attr_bytes_len (a : Attr) : (Attr.bytes a).length = 88 := by
  simp [Attr.bytes, u64le, u32le]

/-- Helper: the full `fuse_entry_out` serialisation is 128 bytes. -/
theorem entryOut_bytes_len (e : EntryOut) : (EntryOut.bytes e).length = 128 := by
  simp [EntryOut.bytes, attr_bytes_len, u64le, u32le]

/-- Helper: the full `fuse_attr_out` serialisation is 104 bytes. -/
theorem attrOut_bytes_len (a : AttrOut) : (AttrOut.bytes a).length = 104 := by
  simp [AttrOut.bytes, attr_bytes_len, u64le, u32le]

/-- Helper: the `fuse_open_out` serialisation is 16 bytes. -/
theorem openOut_bytes_len (o : OpenOut) : (OpenOut.bytes o).length = 16 := rfl

/-- Helper: the version-dependent entry size never exceeds the full layout. -/
theorem EntryOutSize_le (p : Protocol) : EntryOutSize p ≤ 128 := by
  unfold EntryOutSize
  split <;> omega

/-- Helper: the version-dependent attr size never exceeds the full layout. -/
theorem AttrOutSize_le (p : Protocol) : AttrOutSize p ≤ 104 := by
  unfold AttrOutSize
  split <;> omega

/-- Claim C5: with a nil error, the reply body of LookUpInode, MkDir and
CreateSymlink is `EntryOutSize protocol` bytes, of GetInodeAttributes and
SetInodeAttributes `AttrOutSize protocol` bytes, and of CreateFile
`EntryOutSize protocol` plus the fixed `fuse_open_out` size — and these
sizes genuinely depend on the protocol version rather than being the fixed
latest layout. -/
theorem success_reply_sizes_version_dependent (p : Protocol) (o1 : LookUpInodeOp)
    (o2 : GetInodeAttributesOp) (o3 : SetInodeAttributesOp) (o4 : MkDirOp)
    (o5 : CreateSymlinkOp) (o6 : CreateFileOp) :
    (∃ b, kernelResponseForOp (Op.lookUpInode o1) p = Except.ok (some b) ∧
      b.payload.length = EntryOutSize p) ∧
    (∃ b, kernelResponseForOp (Op.getInodeAttributes o2) p = Except.ok (some b) ∧
      b.payload.length = AttrOutSize p) ∧
    (∃ b, kernelResponseForOp (Op.setInodeAttributes o3) p = Except.ok (some b) ∧
      b.payload.length = AttrOutSize p) ∧
    (∃ b, kernelResponseForOp (Op.mkDir o4) p = Except.ok (some b) ∧
      b.payload.length = EntryOutSize p) ∧
    (∃ b, kernelResponseForOp (Op.createSymlink o5) p = Except.ok (some b) ∧
      b.payload.length = EntryOutSize p) ∧
    (∃ b, kernelResponseForOp (Op.createFile o6) p = Except.ok (some b) ∧
      b.payload.length = EntryOutSize p + OpenOutSize) ∧
    EntryOutSize { Major := 7, Minor := 8 } ≠ EntryOutSize { Major := 7, Minor := 31 } ∧
    AttrOutSize { Major := 7, Minor := 8 } ≠ AttrOutSize { Major := 7, Minor := 31 } := by
  have hEle := EntryOutSize_le p
  have hAle := AttrOutSize_le p
  refine ⟨⟨_, rfl, ?_⟩, ⟨_, rfl, ?_⟩, ⟨_, rfl, ?_⟩, ⟨_, rfl, ?_⟩, ⟨_, rfl, ?_⟩,
    ⟨_, rfl, ?_⟩, by decide, by decide⟩
  · simp only [List.length_take, entryOut_bytes_len]
    omega
  · simp only [List.length_take, attrOut_bytes_len]
    omega
  · simp only [List.length_take, attrOut_bytes_len]
    omega
  · simp only [List.length_take, entryOut_bytes_len]
    omega
  · simp only [List.length_take, entryOut_bytes_len]
    omega
  · simp only [List.length_append, List.length_take, entryOut_bytes_len,
      openOut_bytes_len, OpenOutSize]
    omega

/-- Claim C6: with a nil error, the Init reply body is the `fuse_init_out`
serialisation whose major/minor come from the op's `Library` out-field and
whose readahead, flags and max-write come from the corresponding
out-fields; the congestion-threshold words of the layout are included in
the frame (the op carries no fields for them, so they are encoded as
zero). -/
theorem init_reply_fields (fid : Nat) (o : internalInitOp) (p : Protocol) :
    kernelResponse fid (Op.init o) none p =
      Except.ok (some { header := { Len := 40, Error := 0, Unique := fid }
                        payload := InitOut.bytes
                          { Major := o.Library.Major
                            Minor := o.Library.Minor
                            MaxReadahead := o.MaxReadahead
                            Flags := o.Flags
                            MaxBackground := 0
                            CongestionThreshold := 0
                            MaxWrite := o.MaxWrite } }) := rfl

/-- Claim C7: with a nil error, a ReadFile or ReadDir reply frame is exactly
the 16 header bytes followed by the user data byte-for-byte, and a
ReadSymlink reply body is exactly the target's bytes with no trailing NUL,
so its length is the target's length. -/
theorem data_replies_byte_exact (fid : Nat) (p : Protocol) (orf : ReadFileOp)
    (ord : ReadDirOp) (osl : ReadSymlinkOp) :
    (∃ b, kernelResponse fid (Op.readFile orf) none p = Except.ok (some b) ∧
      b.payload = orf.Data ∧
      OutMessage.bytes b = OutHeader.bytes b.header ++ orf.Data ∧
      (OutHeader.bytes b.header).length = OutHeaderSize) ∧
    (∃ b, kernelResponse fid (Op.readDir ord) none p = Except.ok (some b) ∧
      b.payload = ord.Data ∧
      OutMessage.bytes b = OutHeader.bytes b.header ++ ord.Data ∧
      (OutHeader.bytes b.header).length = OutHeaderSize) ∧
    (∃ b, kernelResponse fid (Op.readSymlink osl) none p = Except.ok (some b) ∧
      b.payload = osl.Target ∧ b.payload.length = osl.Target.length) :=
  ⟨⟨_, rfl, rfl, rfl, rfl⟩, ⟨_, rfl, rfl, rfl, rfl⟩, ⟨_, rfl, rfl, rfl⟩⟩

/-- Claim C8: a request whose opcode the library does not understand is
answered with a header-only reply whose error is `-ENOSYS` and whose
`Unique` echoes the request's `fuseID`, and no user filesystem callback is
invoked for it. -/
theorem unknown_opcode_answered_enosys (fid : Nat) (o : unknownOp) (p : Protocol) :
    serveUnknownOp fid o p =
      (Except.ok (some { header := { Len := OutHeaderSize
                                     Error := -(Int.ofNat enosysVal)
                                     Unique := fid }
                         payload := [] }), false) := rfl

/-- Claim C9: `kernelResponseForOp` succeeds exactly on the recognised op
variants — for the `unknownOp` sentinel it reaches the panic branch, and so
does `kernelResponse` with a nil error, while a non-nil error never
panics: unknown ops must always be answered with a non-nil error. -/
theorem kernelResponseForOp_defined_iff_recognised (p : Protocol) (fid : Nat)
    (op : Op) (e : GoError) :
    isOkE (kernelResponseForOp op p) = !(Op.isUnknown op) ∧
    isOkE (kernelResponse fid op none p) = !(Op.isUnknown op) ∧
    isOkE (kernelResponse fid op (some e) p) = true :=
  ⟨by cases op <;> rfl, by cases op <;> rfl, rfl⟩

/-- Claim C10: with a nil error, the StatFS reply body is an all-zero
`fuse_statfs_out` region — the internal statfs op type carries no fields,
so no user-supplied statfs values are ever encoded. -/
theorem statfs_reply_all_zero (fid : Nat) (o : internalStatFSOp) (p : Protocol) :
    kernelResponse fid (Op.statFS o) none p =
      Except.ok (some { header := { Len := 96, Error := 0, Unique := fid }
                        payload := List.replicate StatfsOutSize 0 }) := rfl

end Fuse
